import Mathlib

/-!
Verification of the fullerite NerveUWSGI collector
(src/fullerite/collector/nerve_uwsgi.go) against its natural-language
specification.

The Go source is shallowly embedded: JSON values become the inductive `Jv`,
Go maps become association lists (Go map iteration order is unspecified; the
model fixes the JSON-document order, and JSON objects are assumed to have
distinct keys since Go's map collapses duplicates), fallible Go functions
return `GoResult` (where `panicked` models a Go runtime panic), and the
`regexp.MatchString` call is embedded as an executable substring matcher.
-/

set_option autoImplicit false

namespace Fullerite

/-- A JSON value, as produced by Go's `encoding/json` unmarshalling into
`interface\x7b\x7d`: numbers always arrive as `float64` (modelled as `Rat`
since the parsers only carry values through, never compute with them),
strings, booleans, null, arrays, and objects (`map[string]interface\x7b\x7d`,
modelled as an association list in document order). -/
inductive Jv where
  | num (x : Rat)
  | str (s : String)
  | bool (b : Bool)
  | null
  | arr (xs : List Jv)
  | obj (fields : List (String × Jv))

mutual

/-- Number of constructors in a JSON value; used only to bound the
flattener's worklist iterations. -/
def jvWeight : Jv → Nat
  | Jv.num _ => 1
  | Jv.str _ => 1
  | Jv.bool _ => 1
  | Jv.null => 1
  | Jv.arr xs => 1 + jvListWeight xs
  | Jv.obj fields => 1 + jvFieldsWeight fields

/-- Total weight of a JSON array's elements. -/
def jvListWeight : List Jv → Nat
  | [] => 0
  | v :: rest => 1 + jvWeight v + jvListWeight rest

/-- Total weight of a JSON object's fields. -/
def jvFieldsWeight : List (String × Jv) → Nat
  | [] => 0
  | (_, v) :: rest => 1 + jvWeight v + jvFieldsWeight rest

end

/-- Outcome of running a Go function that can return an error or panic.
`ok` is a normal return with a `nil` error, `error` a non-nil returned
error, and `panicked` a runtime panic (nil-function call, out-of-range
index, failed type assertion). -/
inductive GoResult (α : Type) where
  | ok (val : α)
  | error (msg : String)
  | panicked
deriving DecidableEq

/-- Modelled from the spec (§3 Data Model): the `fullerite/metric` package is
not under src/. A Metric is a value object with a dot-delimited `name`, a
numeric `value` (float64 in Go; modelled as `Rat` since the collector never
computes with values), a `metricType` (the source stores it as a string, cf.
the `MetricTypeCounter`/`MetricTypeGauge` constants in collector.go's
package), and a `dimensions` mapping from key to string value with unique
keys, insertion order irrelevant. -/
structure Metric where
  name : String
  metricType : String
  value : Rat
  dimensions : List (String × String)
deriving DecidableEq

/-- Modelled from the spec: the `metric.Gauge` type constant. -/
def Metric.Gauge : String := "gauge"

/-- Modelled from the spec: the `metric.Counter` type constant. -/
def Metric.Counter : String := "counter"

/-- Modelled from the spec: the `metric.CumulativeCounter` type constant. -/
def Metric.CumulativeCounter : String := "cumcounter"

/-- MetricTypeCounter, the string for the counter metric type used by the
flattener's typed collectors (nerve_uwsgi.go line 23). -/
def MetricTypeCounter : String := "COUNTER"

/-- MetricTypeGauge, the string for the gauge metric type used by the
flattener's typed collectors (nerve_uwsgi.go line 25). -/
def MetricTypeGauge : String := "GAUGE"

/-- Modelled from the spec: `metric.New(name)` builds a Metric with the given
name, a zero value, gauge type, and no dimensions. -/
def Metric.New (name : String) : Metric :=
  { name := name, metricType := Metric.Gauge, value := 0, dimensions := [] }

/-- Modelled from the spec: `m.AddDimension(k, v)` sets key `k` to `v` in the
metric's dimension mapping, overwriting any previous binding (keys unique). -/
def Metric.AddDimension (m : Metric) (k v : String) : Metric :=
  { m with dimensions := (k, v) :: m.dimensions.filter (fun p => p.1 ≠ k) }

/-- Lookup of a dimension value by key. -/
def getDim : List (String × String) → String → Option String
  | [], _ => none
  | (k, v) :: rest, key => if k = key then some v else getDim rest key

/-- Modelled from the spec: `metric.AddToAll(&metrics, dims)` adds every
key/value pair of `dims` as a dimension on every metric of the slice. -/
def AddToAll (metrics : List Metric) (dims : List (String × String)) : List Metric :=
  metrics.map (fun m => dims.foldl (fun acc kv => acc.AddDimension kv.1 kv.2) m)

/-- Lookup in a JSON object (Go map index `jsonMap[key]`). -/
def lookupJv : List (String × Jv) → String → Option Jv
  | [], _ => none
  | (k, v) :: rest, key => if k = key then some v else lookupJv rest key

/-- Go's `unit == "seconds"`-style comparison of an `interface\x7b\x7d` to a
string literal: true exactly when the dynamic type is string and the values
agree. -/
def jvIsStr (v : Jv) (s : String) : Bool :=
  match v with
  | Jv.str t => t = s
  | _ => false

/-- An ASCII digit, the character class `[0-9]` of the rate regexp. -/
def isAsciiDigit (c : Char) : Bool := '0' ≤ c && c ≤ '9'

/-- Does the character list begin with a match of the regexp `m[0-9]+_rate`?
Greedy digit consumption is exact here because the character after the final
digit of any match is `'_'`, which is not a digit. -/
def startsRate (l : List Char) : Bool :=
  match l with
  | 'm' :: rest =>
      let ds := rest.takeWhile isAsciiDigit
      !ds.isEmpty && decide ((rest.drop ds.length).take 5 = ['_', 'r', 'a', 't', 'e'])
  | _ => false

/-- Does `p` hold of some suffix of the list? -/
def anySuffix (p : List Char → Bool) : List Char → Bool
  | [] => p []
  | c :: rest => p (c :: rest) || anySuffix p rest

/-- Embedding of `regexp.MatchString("m[0-9]+_rate", rollup)`
(nerve_uwsgi.go lines 455 and 492): an unanchored search, true when any
substring matches `m[0-9]+_rate`. -/
def containsRatePattern (s : String) : Bool :=
  anySuffix startsRate s.data

/-- createMetricFromDatam (nerve_uwsgi.go lines 517-533): builds a metric
from a rollup/value pair; adds the `rollup` dimension only outside
cumulative-counter mode; returns a metric only when the value has a numeric
base (`none` models `ok == false`). -/
def createMetricFromDatam (rollup : String) (value : Jv) (metricName metricType : String)
    (cumulCounterEnabled : Bool) : Option Metric :=
  let m := Metric.New metricName
  let m := { m with metricType := metricType }
  let m := if !cumulCounterEnabled then m.AddDimension "rollup" rollup else m
  match value with
  | Jv.num x => some { m with value := x }
  | _ => none

/-- metricFromMap (nerve_uwsgi.go lines 486-513): emits one metric per
rollup pair of a flattened map; in cumulative-counter mode, rollups matching
`m[0-9]+_rate` are skipped, other rollups except `value` get the rollup
appended to the name, and `count` is retyped to CumulativeCounter. -/
def metricFromMap : List (String × Jv) → String → String → Bool → List Metric
  | [], _, _, _ => []
  | (rollup, value) :: rest, metricName, metricType, cumulCounterEnabled =>
    let matched := containsRatePattern rollup
    if cumulCounterEnabled && matched then
      metricFromMap rest metricName metricType cumulCounterEnabled
    else
      let mName :=
        if cumulCounterEnabled ∧ rollup ≠ "value" then metricName ++ "." ++ rollup
        else metricName
      let mType :=
        if cumulCounterEnabled ∧ rollup ≠ "value" ∧ rollup = "count" then Metric.CumulativeCounter
        else metricType
      match createMetricFromDatam rollup value mName mType cumulCounterEnabled with
      | some m => m :: metricFromMap rest metricName metricType cumulCounterEnabled
      | none => metricFromMap rest metricName metricType cumulCounterEnabled

/-- convertToMetrics (nerve_uwsgi.go lines 424-432): one `metricFromMap`
expansion per category entry. -/
def convertToMetrics : List (String × List (String × Jv)) → String → Bool → List Metric
  | [], _, _ => []
  | (metricName, metricData) :: rest, metricType, cumulCounterEnabled =>
    metricFromMap metricData metricName metricType cumulCounterEnabled
      ++ convertToMetrics rest metricType cumulCounterEnabled

/-- The struct uwsgiJSONFormat1X (nerve_uwsgi.go lines 61-68): the fixed
five-category document shape shared by the uwsgi and java parsers, plus the
`service_dims` mapping used by uwsgi.1.1. -/
structure UwsgiJSONFormat1X where
  serviceDims : List (String × Jv)
  counters : List (String × List (String × Jv))
  gauges : List (String × List (String × Jv))
  histograms : List (String × List (String × Jv))
  meters : List (String × List (String × Jv))
  timers : List (String × List (String × Jv))

/-- Go map construction from JSON object fields: a duplicate key overwrites
the earlier binding (keep-last). -/
def dedupKeys {α : Type} : List (String × α) → List (String × α) :=
  List.foldl (fun acc kv => acc.filter (fun p => p.1 ≠ kv.1) ++ [kv]) []

/-- Unmarshalling a JSON value into `map[string]interface\x7b\x7d`: objects
decode field-by-field, JSON `null` leaves the map nil (no error), anything
else is a type error. -/
def decodeRollupMap : Jv → Except String (List (String × Jv))
  | Jv.obj fields => .ok (dedupKeys fields)
  | Jv.null => .ok []
  | _ => .error "json: cannot unmarshal value into Go map of interface"

/-- Unmarshalling the fields of one category object into
`map[string]map[string]interface\x7b\x7d`. -/
def decodeCategoryFields : List (String × Jv) → Except String (List (String × List (String × Jv)))
  | [] => .ok []
  | (k, v) :: rest => do
    let m ← decodeRollupMap v
    let r ← decodeCategoryFields rest
    .ok ((k, m) :: r)

/-- Unmarshalling a JSON value into one category
(`map[string]map[string]interface\x7b\x7d`). -/
def decodeCategory : Jv → Except String (List (String × List (String × Jv)))
  | Jv.obj fields => decodeCategoryFields (dedupKeys fields)
  | Jv.null => .ok []
  | _ => .error "json: cannot unmarshal value into Go map of rollup maps"

/-- An empty uwsgiJSONFormat1X document (all maps nil). -/
def UwsgiJSONFormat1X.empty : UwsgiJSONFormat1X :=
  ⟨[], [], [], [], [], []⟩

/-- `json.Unmarshal` of a JSON value into `uwsgiJSONFormat1X`: the top level
must be an object (or `null`, which Go leaves untouched); each known field
decodes per its struct type, unknown fields are ignored, missing fields stay
nil. Go's case-insensitive field-name fallback is not modelled (no claim
involves field-name casing), and the model checks fields in a fixed order
where Go visits them in document order — this changes only which error is
reported when several fields are malformed. -/
def decodeUwsgi (v : Jv) : Except String UwsgiJSONFormat1X :=
  match v with
  | Jv.null => .ok UwsgiJSONFormat1X.empty
  | Jv.obj fields0 => do
    let fields := dedupKeys fields0
    let sd ← match lookupJv fields "service_dims" with
             | some x => decodeRollupMap x
             | none => .ok []
    let cs ← match lookupJv fields "counters" with
             | some x => decodeCategory x
             | none => .ok []
    let gs ← match lookupJv fields "gauges" with
             | some x => decodeCategory x
             | none => .ok []
    let hs ← match lookupJv fields "histograms" with
             | some x => decodeCategory x
             | none => .ok []
    let ms ← match lookupJv fields "meters" with
             | some x => decodeCategory x
             | none => .ok []
    let ts ← match lookupJv fields "timers" with
             | some x => decodeCategory x
             | none => .ok []
    .ok ⟨sd, cs, gs, hs, ms, ts⟩
  | _ => .error "json: cannot unmarshal value into Go value of type uwsgiJSONFormat1X"

/-- The raw HTTP response body handed to a parser: `none` models bytes that
are not valid JSON at all, `some v` a body whose JSON reading is `v`. -/
def Raw : Type := Option Jv

/-- The error `json.Unmarshal` reports on an empty/invalid body. -/
def invalidJSONError : String := "unexpected end of JSON input"

/-- The appendIt closure of getParsedMetrics/parseJavaMetrics
(nerve_uwsgi.go lines 729-734): outside cumulative-counter mode, stamp the
`type` dimension with the category name on every metric of the batch. -/
def appendTyped (cumulCounterEnabled : Bool) (metrics : List Metric) (typeDimVal : String) :
    List Metric :=
  if cumulCounterEnabled then metrics else AddToAll metrics [("type", typeDimVal)]

/-- getParsedMetrics (nerve_uwsgi.go lines 727-743): expand the five
categories in order gauges, counters, histograms, meters, timers, with
counters typed `metric.Counter` and the rest `metric.Gauge`. -/
def getParsedMetrics (parsed : UwsgiJSONFormat1X) (cumulCounterEnabled : Bool) : List Metric :=
  appendTyped cumulCounterEnabled (convertToMetrics parsed.gauges Metric.Gauge cumulCounterEnabled) "gauge"
    ++ appendTyped cumulCounterEnabled (convertToMetrics parsed.counters Metric.Counter cumulCounterEnabled) "counter"
    ++ appendTyped cumulCounterEnabled (convertToMetrics parsed.histograms Metric.Gauge cumulCounterEnabled) "histogram"
    ++ appendTyped cumulCounterEnabled (convertToMetrics parsed.meters Metric.Gauge cumulCounterEnabled) "meter"
    ++ appendTyped cumulCounterEnabled (convertToMetrics parsed.timers Metric.Gauge cumulCounterEnabled) "timer"

/-- parseUWSGIMetrics10 (nerve_uwsgi.go lines 229-240): unmarshal the body
into uwsgiJSONFormat1X, propagating any unmarshal error, then expand it. -/
def parseUWSGIMetrics10 (raw : Raw) (cumulCounterEnabled : Bool) : GoResult (List Metric) :=
  match raw with
  | none => .error invalidJSONError
  | some v =>
    match decodeUwsgi v with
    | .error e => .error e
    | .ok parsed => .ok (getParsedMetrics parsed cumulCounterEnabled)

/-- The service_dims loop of parseUWSGIMetrics11 (nerve_uwsgi.go lines
259-261): each pair is applied to all metrics via AddToAll, after the Go
type assertion `v.(string)` — which panics (modelled by `none`) when the
value is not a JSON string. -/
def applyServiceDims (results : List Metric) : List (String × Jv) → Option (List Metric)
  | [] => some results
  | (k, v) :: rest =>
    match v with
    | Jv.str s => applyServiceDims (AddToAll results [(k, s)]) rest
    | _ => none

/-- parseUWSGIMetrics11 (nerve_uwsgi.go lines 244-263): like uwsgi.1.0, then
apply every service_dims pair to every metric of the document. -/
def parseUWSGIMetrics11 (raw : Raw) (cumulCounterEnabled : Bool) : GoResult (List Metric) :=
  match raw with
  | none => .error invalidJSONError
  | some v =>
    match decodeUwsgi v with
    | .error e => .error e
    | .ok parsed =>
      match applyServiceDims (getParsedMetrics parsed cumulCounterEnabled) parsed.serviceDims with
      | some results => .ok results
      | none => .panicked

/-- Split a character list at every occurrence of the separator. -/
def splitOnChar (sep : Char) : List Char → List (List Char)
  | [] => [[]]
  | c :: rest =>
    if c = sep then [] :: splitOnChar sep rest
    else
      match splitOnChar sep rest with
      | h :: t => (c :: h) :: t
      | [] => [[c]]

/-- `strings.Split(s, sep)` for a one-character separator (the source only
splits on "," and "="): the pieces of `s` between occurrences of `sep`;
always at least one piece. -/
def goSplit (s : String) (sep : Char) : List String :=
  (splitOnChar sep s.data).map String.mk

/-- The loop body of addDimensionsFromName over the segments after the
first: split each on `=` and add the first two pieces as a dimension; a
segment with no `=` makes `dimension[1]` an out-of-range index — a Go
runtime panic, modelled by `none`. -/
def addDimsGo : List String → Metric → Option Metric
  | [], m => some m
  | d :: rest, m =>
    match goSplit d '=' with
    | k :: v :: _ => addDimsGo rest (m.AddDimension k v)
    | _ => none

/-- addDimensionsFromName (nerve_uwsgi.go lines 745-752): every
comma-segment after the first becomes a dimension `key=value`. -/
def addDimensionsFromName (m : Metric) (dimensions : List String) : Option Metric :=
  addDimsGo (dimensions.drop 1) m

/-- The inner rollup loop of convertToJavaMetrics (nerve_uwsgi.go lines
452-474): identical naming/typing/drop logic to metricFromMap, but the base
name is `values[0]` and the name-embedded dimensions are added to every
emitted metric (which can panic on a malformed segment). -/
def javaInner (values : List String) (metricType : String) (cumulCounterEnabled : Bool) :
    List (String × Jv) → Option (List Metric)
  | [] => some []
  | (rollup, value) :: rest =>
    let matched := containsRatePattern rollup
    if cumulCounterEnabled && matched then
      javaInner values metricType cumulCounterEnabled rest
    else
      let mName :=
        if cumulCounterEnabled ∧ rollup ≠ "value" then values.headD "" ++ "." ++ rollup
        else values.headD ""
      let mType :=
        if cumulCounterEnabled ∧ rollup ≠ "value" ∧ rollup = "count" then Metric.CumulativeCounter
        else metricType
      match createMetricFromDatam rollup value mName mType cumulCounterEnabled with
      | some tmpMetric =>
        match addDimensionsFromName tmpMetric values with
        | some m2 => (javaInner values metricType cumulCounterEnabled rest).map (m2 :: ·)
        | none => none
      | none => javaInner values metricType cumulCounterEnabled rest

/-- convertToJavaMetrics (nerve_uwsgi.go lines 446-478): the entry key is
split on commas (`strings.Split` always yields at least one piece, so
`values[0]` is modelled by `values.headD ""` and the default is never
used); the pieces after the first become dimensions on every metric of the
entry. -/
def convertToJavaMetrics : List (String × List (String × Jv)) → String → Bool → Option (List Metric)
  | [], _, _ => some []
  | (metricName, metricData) :: rest, metricType, cumulCounterEnabled =>
    let values := goSplit metricName ','
    match javaInner values metricType cumulCounterEnabled metricData with
    | some ms => (convertToJavaMetrics rest metricType cumulCounterEnabled).map (ms ++ ·)
    | none => none

/-- One appendIt step of parseJavaMetrics (nerve_uwsgi.go lines 276-287):
convert a category, stamp the `type` dimension outside cumulative mode, and
append; a panic in the conversion aborts the whole parse. -/
def javaAppend (cumulCounterEnabled : Bool) (acc : Option (List Metric))
    (category : List (String × List (String × Jv))) (metricType typeDimVal : String) :
    Option (List Metric) :=
  match acc with
  | none => none
  | some results =>
    match convertToJavaMetrics category metricType cumulCounterEnabled with
    | none => none
    | some ms => some (results ++ appendTyped cumulCounterEnabled ms typeDimVal)

/-- parseJavaMetrics (nerve_uwsgi.go lines 267-290): unmarshal into
uwsgiJSONFormat1X and expand the five categories with the java entry-key
interpretation. -/
def parseJavaMetrics (raw : Raw) (cumulCounterEnabled : Bool) : GoResult (List Metric) :=
  match raw with
  | none => .error invalidJSONError
  | some v =>
    match decodeUwsgi v with
    | .error e => .error e
    | .ok parsed =>
      let r := javaAppend cumulCounterEnabled (some []) parsed.gauges Metric.Gauge "gauge"
      let r := javaAppend cumulCounterEnabled r parsed.counters Metric.Counter "counter"
      let r := javaAppend cumulCounterEnabled r parsed.histograms Metric.Gauge "histogram"
      let r := javaAppend cumulCounterEnabled r parsed.meters Metric.Gauge "meter"
      let r := javaAppend cumulCounterEnabled r parsed.timers Metric.Gauge "timer"
      match r with
      | some results => .ok results
      | none => .panicked

/-- `strings.Join(metricName, ".")` on the path segments. -/
def joinDots (segments : List String) : String :=
  String.intercalate "." segments

/-- extractGaugeValue (nerve_uwsgi.go lines 571-574): promote a residual
non-map child to a leaf gauge named by the joined path plus the key, with
rollup dimension `value`. -/
def extractGaugeValue (key : String) (value : Jv) (metricName : List String) : Option Metric :=
  createMetricFromDatam "value" value (joinDots (metricName ++ [key])) "GAUGE" false

/-- collectGauge (nerve_uwsgi.go lines 581-589): whole-node expansion via
metricFromMap, guarded on the presence of a `value` key. -/
def collectGauge (jsonMap : List (String × Jv)) (metricName : List String)
    (metricType : String) : List Metric :=
  match lookupJv jsonMap "value" with
  | some _ => metricFromMap jsonMap (joinDots metricName) metricType false
  | none => []

/-- collectCounter (nerve_uwsgi.go lines 637-645): whole-node expansion via
metricFromMap, guarded on the presence of a `count` key. -/
def collectCounter (jsonMap : List (String × Jv)) (metricName : List String)
    (metricType : String) : List Metric :=
  match lookupJv jsonMap "count" with
  | some _ => metricFromMap jsonMap (joinDots metricName) metricType false
  | none => []

/-- collectHistogram (nerve_uwsgi.go lines 606-630): guarded on a `count`
key; every key except `type` becomes a metric, `count` typed COUNTER and the
rest GAUGE. -/
def collectHistogram (jsonMap : List (String × Jv)) (metricName : List String)
    (_metricType : String) : List Metric :=
  match lookupJv jsonMap "count" with
  | none => []
  | some _ =>
    jsonMap.filterMap (fun kv =>
      if kv.1 = "type" then none
      else
        createMetricFromDatam kv.1 kv.2 (joinDots metricName)
          (if kv.1 = "count" then MetricTypeCounter else MetricTypeGauge) false)

/-- collectRate (nerve_uwsgi.go lines 656-678): guarded on a `unit` key
equal (as a dynamically-typed Go comparison) to "seconds" or "milliseconds";
every key except `unit` becomes a metric, `count` typed COUNTER and the rest
GAUGE. -/
def collectRate (jsonMap : List (String × Jv)) (metricName : List String) : List Metric :=
  match lookupJv jsonMap "unit" with
  | some unit =>
    if jvIsStr unit "seconds" || jvIsStr unit "milliseconds" then
      jsonMap.filterMap (fun kv =>
        if kv.1 = "unit" then none
        else
          createMetricFromDatam kv.1 kv.2 (joinDots metricName)
            (if kv.1 = "count" then MetricTypeCounter else MetricTypeGauge) false)
    else []
  | none => []

/-- checkForMeterUnits (nerve_uwsgi.go lines 716-724): an `event_type` key
plus a `unit` of seconds, milliseconds, or minutes. -/
def checkForMeterUnits (jsonMap : List (String × Jv)) : Bool :=
  match lookupJv jsonMap "event_type" with
  | some _ =>
    match lookupJv jsonMap "unit" with
    | some unit => jvIsStr unit "seconds" || jvIsStr unit "milliseconds" || jvIsStr unit "minutes"
    | none => false
  | none => false

/-- collectMeter (nerve_uwsgi.go lines 691-714): guarded on meter units;
every key except `unit`, `event_type`, `type` becomes a metric, `count`
typed COUNTER and the rest GAUGE. -/
def collectMeter (jsonMap : List (String × Jv)) (metricName : List String) : List Metric :=
  if checkForMeterUnits jsonMap then
    jsonMap.filterMap (fun kv =>
      if kv.1 = "unit" ∨ kv.1 = "event_type" ∨ kv.1 = "type" then none
      else
        createMetricFromDatam kv.1 kv.2 (joinDots metricName)
          (if kv.1 = "count" then MetricTypeCounter else MetricTypeGauge) false)
  else []

/-- parseFlattenedMetricMap (nerve_uwsgi.go lines 384-400): dispatch on the
node's `type` field — the Go type assertion `t.(string)` panics (`none`)
when the `type` value is not a string; a string other than
gauge/histogram/counter/meter, or a missing `type` key, falls through to
collectRate. -/
def parseFlattenedMetricMap (jsonMap : List (String × Jv)) (metricName : List String) :
    Option (List Metric) :=
  match lookupJv jsonMap "type" with
  | some t =>
    match t with
    | Jv.str metricType =>
      if metricType = "gauge" then some (collectGauge jsonMap metricName "gauge")
      else if metricType = "histogram" then some (collectHistogram jsonMap metricName "histogram")
      else if metricType = "counter" then some (collectCounter jsonMap metricName "counter")
      else if metricType = "meter" then some (collectMeter jsonMap metricName)
      else some (collectRate jsonMap metricName)
    | _ => none
  | none => some (collectRate jsonMap metricName)

/-- The struct nestedMetricMap (nerve_uwsgi.go lines 71-74): the flattener's
working state, a path-so-far and the submapping at that path. -/
structure NestedMetricMap where
  metricSegments : List String
  metricMap : List (String × Jv)

/-- The nodeVisitorLoop of parseNestedMetricMaps (nerve_uwsgi.go lines
357-378) over the remaining entries of one node: a nested-map child is
enqueued; the first non-map child triggers whole-node extraction over the
full node map — if that yields metrics the loop breaks (entries after the
break are neither enqueued nor extracted), otherwise the single child is
promoted to a leaf gauge. Returns the emitted metrics and the newly
enqueued nodes; `none` propagates a panic from parseFlattenedMetricMap. -/
def visitEntries (fullMap : List (String × Jv)) (segments : List String) :
    List (String × Jv) → Option (List Metric × List NestedMetricMap)
  | [] => some ([], [])
  | (k, v) :: rest =>
    match v with
    | Jv.obj m =>
      match visitEntries fullMap segments rest with
      | some (ms, ns) => some (ms, ⟨segments ++ [k], m⟩ :: ns)
      | none => none
    | _ =>
      match parseFlattenedMetricMap fullMap segments with
      | none => none
      | some tempResults =>
        if tempResults.length > 0 then some (tempResults, [])
        else
          match extractGaugeValue k v segments with
          | some m =>
            match visitEntries fullMap segments rest with
            | some (ms, ns) => some (m :: ms, ns)
            | none => none
          | none => visitEntries fullMap segments rest

/-- The breadth-first worklist loop of parseNestedMetricMaps (nerve_uwsgi.go
lines 351-379), with explicit fuel bounding the number of popped nodes. Each
popped node enqueues only strict submaps of itself, so the number of
iterations never exceeds one plus the number of object values in the tree,
which `jvFieldsWeight` dominates; with the fuel used by
`parseNestedMetricMaps` the `fuel = 0` case is unreachable. -/
def bfsNestedMaps (fuel : Nat) (queue : List NestedMetricMap) : Option (List Metric) :=
  match fuel with
  | 0 => some []
  | fuel + 1 =>
    match queue with
    | [] => some []
    | node :: rest =>
      match visitEntries node.metricMap node.metricSegments node.metricMap with
      | none => none
      | some (ms, ns) =>
        match bfsNestedMaps fuel (rest ++ ns) with
        | some more => some (ms ++ more)
        | none => none

/-- parseNestedMetricMaps (nerve_uwsgi.go lines 338-382): start the worklist
from the root map with an empty path. -/
def parseNestedMetricMaps (jsonMap : List (String × Jv)) : Option (List Metric) :=
  bfsNestedMaps (jvFieldsWeight jsonMap + 1) [⟨[], jsonMap⟩]

/-- parseDropwizardMetrics (nerve_uwsgi.go lines 304-314): unmarshal the
body into `map[string]interface\x7b\x7d` (JSON null leaves the map nil) and
flatten it. -/
def parseDropwizardMetrics (raw : Raw) : GoResult (List Metric) :=
  match raw with
  | none => .error invalidJSONError
  | some Jv.null => .ok []
  | some (Jv.obj fields) =>
    match parseNestedMetricMaps (dedupKeys fields) with
    | some ms => .ok ms
    | none => .panicked
  | some _ => .error "json: cannot unmarshal value into Go map of interface"

/-- parseDefault (nerve_uwsgi.go lines 212-224): try the uwsgi.1.0 parser;
propagate its error; on success with zero metrics, re-parse the same body
with the Dropwizard flattener; otherwise return the uwsgi.1.0 result. -/
def parseDefault (raw : Raw) (cumulCounterEnabled : Bool) : GoResult (List Metric) :=
  match parseUWSGIMetrics10 raw cumulCounterEnabled with
  | GoResult.ok results =>
    if results.length = 0 then parseDropwizardMetrics raw else GoResult.ok results
  | other => other

/-- The schemaMap registry built in init (nerve_uwsgi.go lines 86-96): the
four registered schema identifiers and their parsers. -/
def schemaMap : List (String × (Raw → Bool → GoResult (List Metric))) :=
  [("uwsgi.1.0", parseUWSGIMetrics10),
   ("uwsgi.1.1", parseUWSGIMetrics11),
   ("java-1.1", parseJavaMetrics),
   ("default", parseDefault)]

/-- Lookup in the schema registry. -/
def lookupSchema : List (String × (Raw → Bool → GoResult (List Metric))) → String →
    Option (Raw → Bool → GoResult (List Metric))
  | [], _ => none
  | (k, p) :: rest, key => if k = key then some p else lookupSchema rest key

/-- The dispatch step of queryService (nerve_uwsgi.go line 157):
`schemaMap[schemaVer](&rawResponse, whitelisted)`. Indexing a Go map with a
missing key yields the zero value — a nil function — and calling it is a
runtime panic. -/
def dispatchSchema (schemaVer : String) (raw : Raw) (whitelisted : Bool) :
    GoResult (List Metric) :=
  match lookupSchema schemaMap schemaVer with
  | some p => p raw whitelisted
  | none => GoResult.panicked

/-! Concrete documents used by the claim theorems. -/

/-- A java-1.1 body whose single counters entry has a comma-separated key
with two well-formed dimension segments and one numeric rollup. -/
def c5raw : Raw :=
  some (Jv.obj [("counters", Jv.obj
    [("reqs,shard=1,env=prod", Jv.obj [("count", Jv.num 3)])])])

/-- A java-1.1 body with one well-formed counters entry and one entry whose
second comma-segment has no `=`. -/
def c6raw : Raw :=
  some (Jv.obj [("counters", Jv.obj
    [("ok_metric", Jv.obj [("count", Jv.num 1)]),
     ("bad,noeq", Jv.obj [("count", Jv.num 2)])])])

/-- The c6 document with only its well-formed entry. -/
def c6goodRaw : Raw :=
  some (Jv.obj [("counters", Jv.obj
    [("ok_metric", Jv.obj [("count", Jv.num 1)])])])

/-- A uwsgi.1.1 body whose service_dims carries a non-string value alongside
a gauge entry that parses to one metric. -/
def c7raw : Raw :=
  some (Jv.obj [("service_dims", Jv.obj [("region", Jv.num 7)]),
                ("gauges", Jv.obj [("g", Jv.obj [("value", Jv.num 1)])])])

/-- The spec's flattener test document. -/
def c8raw : Raw :=
  some (Jv.obj [("a", Jv.obj [("b", Jv.obj
    [("count", Jv.num 5), ("type", Jv.str "counter")])])])

/-- A Dropwizard body whose single node has an unrecognized `type` string
together with a rate-style `unit` field and a numeric `count`. -/
def c9raw : Raw :=
  some (Jv.obj [("a", Jv.obj
    [("type", Jv.str "weird"), ("unit", Jv.str "seconds"), ("count", Jv.num 5)])])

/-- A uwsgi.1.0 document with a numeric and a non-numeric rollup in the same
counters entry, plus a gauges entry; used to witness the default-mode
characterization. -/
def c3docJv : Jv :=
  Jv.obj [("counters", Jv.obj [("c", Jv.obj [("count", Jv.num 2), ("status", Jv.str "n/a")])]),
          ("gauges", Jv.obj [("g", Jv.obj [("value", Jv.num (3/2))])])]

/-- The document behind `c3docJv` as decoded into uwsgiJSONFormat1X. -/
def c3doc : UwsgiJSONFormat1X :=
  ⟨[], [("c", [("count", Jv.num 2), ("status", Jv.str "n/a")])],
   [("g", [("value", Jv.num (3/2))])], [], [], []⟩

/-- A uwsgi.1.0 document whose single gauge entry yields one metric; used to
witness the non-empty branch of the default parser. -/
def c4okJv : Jv :=
  Jv.obj [("gauges", Jv.obj [("g", Jv.obj [("value", Jv.num 1)])])]

/-- A uwsgi.1.1 document whose service_dims values are all strings. -/
def c7okJv : Jv :=
  Jv.obj [("service_dims", Jv.obj [("habitat", Jv.str "uswest1")]),
          ("gauges", Jv.obj [("g", Jv.obj [("value", Jv.num 1)])])]

/-- The document behind `c7okJv` as decoded into uwsgiJSONFormat1X. -/
def c7okDoc : UwsgiJSONFormat1X :=
  ⟨[("habitat", Jv.str "uswest1")], [], [("g", [("value", Jv.num 1)])], [], [], []⟩

/-! Spec-side definitions: these follow the words of the claims, to be
compared with the source-translated functions above. -/

/-- Spec-side (C2): the cumulative-mode per-entry expansion as the claim
words it — a rollup key containing a `m<digits>_rate` substring emits
nothing; any other numeric rollup emits one metric whose name is the entry
key extended by `.<rollup>` except for the literal rollup `value`, whose
type is forced to CumulativeCounter exactly for the rollup `count`, and
which carries no dimensions. -/
def cumulativeModeSpec (entry : List (String × Jv)) (entryKey metricType : String) : List Metric :=
  entry.filterMap (fun kv =>
    if containsRatePattern kv.1 then none
    else
      match kv.2 with
      | Jv.num x =>
        some ⟨if kv.1 = "value" then entryKey else entryKey ++ "." ++ kv.1,
              if kv.1 = "count" then Metric.CumulativeCounter else metricType, x, []⟩
      | _ => none)

/-- Spec-side (C3): the default-mode category expansion as the claim words
it — exactly one metric per numeric rollup, named by the entry key, with
`type=<category>` and `rollup=<key>` dimensions; non-numeric rollups emit
nothing. -/
def defaultModeSpec : List (String × List (String × Jv)) → String → String → List Metric
  | [], _, _ => []
  | (entryKey, rollups) :: rest, typeDimVal, metricType =>
    rollups.filterMap (fun kv =>
      match kv.2 with
      | Jv.num x => some ⟨entryKey, metricType, x, [("type", typeDimVal), ("rollup", kv.1)]⟩
      | _ => none) ++ defaultModeSpec rest typeDimVal metricType

/-- Spec-side (C10): the string contains a substring of the form
`m<digits>_rate` — at least one digit, anywhere in the string. -/
def HasRateSubstring (s : String) : Prop :=
  ∃ pre ds post, ds ≠ [] ∧ (∀ c ∈ ds, isAsciiDigit c = true) ∧
    s.data = pre ++ 'm' :: (ds ++ '_' :: 'r' :: 'a' :: 't' :: 'e' :: post)

/-- Spec-side (C9): rule-3 leaf-gauge extraction over one node's entries —
every non-map child key becomes an independent leaf gauge named
`<joined-path>.<key>`, subject to the numeric filter. -/
def leafMetricsSpec (entries : List (String × Jv)) (path : List String) : List Metric :=
  entries.filterMap (fun kv =>
    match kv.2 with
    | Jv.obj _ => none
    | _ => extractGaugeValue kv.1 kv.2 path)

/-- Spec-side (C9): the nested-map children of one node, enqueued by the
traversal with the path extended by their key. -/
def childNodesSpec (entries : List (String × Jv)) (path : List String) : List NestedMetricMap :=
  entries.filterMap (fun kv =>
    match kv.2 with
    | Jv.obj m => some ⟨path ++ [kv.1], m⟩
    | _ => none)

/-! Helper lemmas. -/

/-- metricFromMap in default mode: one metric per numeric rollup, named by
the entry key, with only the `rollup` dimension. -/
theorem metricFromMap_default (rollups : List (String × Jv)) (ename mtype : String) :
    metricFromMap rollups ename mtype false =
      rollups.filterMap (fun kv =>
        match kv.2 with
        | Jv.num x => some ⟨ename, mtype, x, [("rollup", kv.1)]⟩
        | _ => none) := by
  induction rollups with
  | nil => rfl
  | cons kv rest ih =>
    obtain ⟨rollup, value⟩ := kv
    cases value <;>
      simp [metricFromMap, List.filterMap_cons, createMetricFromDatam, Metric.New,
        Metric.AddDimension, ih]

/-- Stamping the `type` dimension over a default-mode category expansion
gives the spec-side default-mode expansion. -/
theorem addToAll_type_convert (cat : List (String × List (String × Jv))) (tv mtype : String) :
    AddToAll (convertToMetrics cat mtype false) [("type", tv)] = defaultModeSpec cat tv mtype := by
  induction cat with
  | nil => rfl
  | cons e rest ih =>
    obtain ⟨ename, rollups⟩ := e
    simp only [convertToMetrics, defaultModeSpec, AddToAll, List.map_append] at *
    rw [← ih]
    congr 1
    rw [metricFromMap_default, List.map_filterMap]
    apply List.filterMap_congr
    intro kv _
    cases kv.2 <;> simp [Metric.AddDimension, List.filter]

/-- Greedy digit consumption is exact when the digits are followed by an
underscore. -/
theorem takeWhile_digits_underscore (ds rest : List Char)
    (hds : ∀ c ∈ ds, isAsciiDigit c = true) :
    (ds ++ '_' :: rest).takeWhile isAsciiDigit = ds := by
  induction ds with
  | nil =>
    have h_ : isAsciiDigit '_' = false := by decide
    simp [List.takeWhile, h_]
  | cons d ds ih =>
    have hd := hds d (List.mem_cons_self d ds)
    simp [List.takeWhile, hd, ih fun c hc => hds c (List.mem_cons_of_mem d hc)]

/-- The matcher accepts at a position where `m<digits>_rate` literally
occurs. -/
theorem startsRate_rate (ds post : List Char) (hne : ds ≠ [])
    (hds : ∀ c ∈ ds, isAsciiDigit c = true) :
    startsRate ('m' :: (ds ++ '_' :: 'r' :: 'a' :: 't' :: 'e' :: post)) = true := by
  simp only [startsRate]
  rw [takeWhile_digits_underscore ds _ hds]
  rw [List.drop_left]
  simp [List.isEmpty_iff, hne, List.take]

/-- `anySuffix` holds of a list whose whole satisfies the predicate. -/
theorem anySuffix_self (p : List Char → Bool) (l : List Char) (h : p l = true) :
    anySuffix p l = true := by
  cases l <;> simp [anySuffix, h]

/-- `anySuffix` holds of any extension to the left of a satisfying suffix. -/
theorem anySuffix_append (p : List Char → Bool) (pre l : List Char) (h : p l = true) :
    anySuffix p (pre ++ l) = true := by
  induction pre with
  | nil => simpa using anySuffix_self p l h
  | cons c pre ih => simp [anySuffix, ih]

/-- Completeness of the embedded matcher: any string containing a
`m<digits>_rate` substring is matched. -/
theorem containsRatePattern_of_hasRate (s : String) (h : HasRateSubstring s) :
    containsRatePattern s = true := by
  obtain ⟨pre, ds, post, hne, hds, hdata⟩ := h
  unfold containsRatePattern
  rw [hdata]
  exact anySuffix_append _ pre _ (startsRate_rate ds post hne hds)

/-- When whole-node extraction of a node yields no metrics, the visitor loop
emits exactly the rule-3 leaf gauges of its non-map children and enqueues
exactly its map children. -/
theorem visitEntries_of_empty_extract (full : List (String × Jv)) (segs : List String)
    (h : parseFlattenedMetricMap full segs = some []) :
    ∀ entries, visitEntries full segs entries =
      some (leafMetricsSpec entries segs, childNodesSpec entries segs) := by
  intro entries
  induction entries with
  | nil => rfl
  | cons kv rest ih =>
    obtain ⟨k, v⟩ := kv
    cases v <;>
      simp [visitEntries, h, leafMetricsSpec, childNodesSpec, List.filterMap_cons, ih,
        extractGaugeValue, createMetricFromDatam, Metric.New]

/-- Filtering away another key does not change a lookup. -/
theorem getDim_filter_ne (dims : List (String × String)) (k k2 : String) (h : k ≠ k2) :
    getDim (dims.filter (fun p => p.1 ≠ k2)) k = getDim dims k := by
  induction dims with
  | nil => rfl
  | cons p rest ih =>
    obtain ⟨a, b⟩ := p
    simp only [ne_eq, decide_not] at ih ⊢
    by_cases ha : a = k2
    · subst ha
      simp [List.filter, getDim, ih, Ne.symm h]
    · by_cases hak : a = k
      · subst hak
        simp [List.filter, getDim, ha, ih]
      · simp [List.filter, getDim, ha, hak, ih]

/-- AddDimension makes its own key visible. -/
theorem getDim_AddDimension_self (m : Metric) (k v : String) :
    getDim (m.AddDimension k v).dimensions k = some v := by
  simp [Metric.AddDimension, getDim]

/-- AddDimension leaves other keys untouched. -/
theorem getDim_AddDimension_ne (m : Metric) (k v k2 : String) (h : k2 ≠ k) :
    getDim (m.AddDimension k v).dimensions k2 = getDim m.dimensions k2 := by
  show getDim ((k, v) :: m.dimensions.filter (fun p => p.1 ≠ k)) k2 = getDim m.dimensions k2
  simp only [getDim]
  rw [if_neg (Ne.symm h)]
  exact getDim_filter_ne m.dimensions k2 k h

/-- Applying service_dims whose keys all differ from `k` preserves a lookup
at `k` on every metric. -/
theorem applyServiceDims_preserves (dims : List (String × Jv)) :
    ∀ (ms ms2 : List Metric) (k s : String),
    (∀ kv ∈ dims, kv.1 ≠ k) →
    applyServiceDims ms dims = some ms2 →
    (∀ m ∈ ms, getDim m.dimensions k = some s) →
    ∀ m ∈ ms2, getDim m.dimensions k = some s := by
  induction dims with
  | nil =>
    intro ms ms2 k s _ happ hms
    simp only [applyServiceDims, Option.some.injEq] at happ
    subst happ
    exact hms
  | cons kv rest ih =>
    intro ms ms2 k s hne happ hms
    obtain ⟨k0, v0⟩ := kv
    cases v0 with
    | str s0 =>
      simp only [applyServiceDims] at happ
      refine ih _ _ k s (fun kv h => hne kv (List.mem_cons_of_mem _ h)) happ ?_
      intro m hm
      simp only [AddToAll, List.mem_map] at hm
      obtain ⟨m0, hm0, rfl⟩ := hm
      have hk0 : k0 ≠ k := hne (k0, Jv.str s0) (List.mem_cons_self _ _)
      simp only [List.foldl]
      rw [getDim_AddDimension_ne _ _ _ _ (Ne.symm hk0)]
      exact hms m0 hm0
    | num x => simp [applyServiceDims] at happ
    | bool b => simp [applyServiceDims] at happ
    | null => simp [applyServiceDims] at happ
    | arr xs => simp [applyServiceDims] at happ
    | obj fs => simp [applyServiceDims] at happ

/-- Applying service_dims with distinct keys and all-string values succeeds
and makes every pair visible on every metric. -/
theorem applyServiceDims_spec (dims : List (String × Jv)) :
    ∀ ms : List Metric,
    (dims.map Prod.fst).Nodup →
    (∀ kv ∈ dims, ∃ s, kv.2 = Jv.str s) →
    ∃ ms2, applyServiceDims ms dims = some ms2 ∧
      ∀ k s, (k, Jv.str s) ∈ dims → ∀ m ∈ ms2, getDim m.dimensions k = some s := by
  induction dims with
  | nil =>
    intro ms _ _
    exact ⟨ms, rfl, by simp⟩
  | cons kv rest ih =>
    intro ms hnodup hstr
    obtain ⟨k0, v0⟩ := kv
    obtain ⟨s0, rfl⟩ := hstr (k0, v0) (List.mem_cons_self _ _)
    have hnodup2 : (rest.map Prod.fst).Nodup := (List.nodup_cons.1 (by simpa using hnodup)).2
    obtain ⟨ms2, happ, hprop⟩ :=
      ih (AddToAll ms [(k0, s0)]) hnodup2 (fun kv h => hstr kv (List.mem_cons_of_mem _ h))
    refine ⟨ms2, by simpa [applyServiceDims] using happ, ?_⟩
    intro k s hks m hm
    rcases List.mem_cons.1 hks with heq | htail
    · have hk : k = k0 := congrArg Prod.fst heq
      have hs : Jv.str s = Jv.str s0 := congrArg Prod.snd heq
      have hs2 : s = s0 := by injection hs
      rw [hk, hs2]
      have hne : ∀ kv ∈ rest, kv.1 ≠ k0 := by
        intro kv hkv heq2
        have hk0 : k0 ∉ rest.map Prod.fst := (List.nodup_cons.1 (by simpa using hnodup)).1
        exact hk0 (List.mem_map.2 ⟨kv, hkv, heq2⟩)
      refine applyServiceDims_preserves rest _ _ k0 s0 hne happ ?_ m hm
      intro m1 hm1
      simp only [AddToAll, List.mem_map] at hm1
      obtain ⟨m0, _, rfl⟩ := hm1
      simp only [List.foldl]
      exact getDim_AddDimension_self m0 k0 s0
    · exact hprop k s htail m hm

/-! Claim theorems. -/

/-- C1: the spec mandates that an unregistered Metrics-Schema identifier be
surfaced as an explicit unknown-schema error, neither a silent no-op nor a
crash. The source instead indexes the parser map and calls the result:
`schemaMap["uwsgi.2.0"]` is the zero value (a nil function) and calling it
panics, crashing the collecting goroutine — a crash, exactly what the spec
rules out, so the code is at fault (the spec's §9 flags this source path as
unsafe and mandates the error). -/
theorem c1_unknown_schema_dispatch_panics :
    dispatchSchema "uwsgi.2.0" (some (Jv.obj [])) false = GoResult.panicked := by
  rfl

/-- C5: in default mode, the java-1.1 entry key `reqs,shard=1,env=prod` with
single rollup `count = 3` produces exactly one metric named `reqs` with
value 3, whose dimensions carry `shard=1`, `env=prod`, `rollup=count` and
`type=counter`. -/
theorem c5_java_entry_key_dimensions :
    parseJavaMetrics c5raw false =
      GoResult.ok [⟨"reqs", Metric.Counter, 3,
        [("type", "counter"), ("env", "prod"), ("shard", "1"), ("rollup", "count")]⟩] := by
  decide

/-- C6: the claim (and spec §7) confine a comma-segment lacking `=` to a
per-entry data error that cannot crash the parse or affect sibling entries.
The source indexes `strings.Split(segment, "=")[1]`, which is out of range
for such a segment: the whole java-1.1 parse of a document containing the
entry `bad,noeq` panics, and the well-formed sibling entry `ok_metric` —
which parses fine on its own, as the second conjunct shows — is lost with
it. The code, not the claim, is at fault. -/
theorem c6_malformed_segment_panics :
    parseJavaMetrics c6raw false = GoResult.panicked ∧
    parseJavaMetrics c6goodRaw false =
      GoResult.ok [⟨"ok_metric", Metric.Counter, 1,
        [("type", "counter"), ("rollup", "count")]⟩] := by
  constructor
  · decide
  · decide

/-- C7 counterexample: the claim says every service_dims value is coerced to
a string whatever its JSON type and applied to every metric of the document.
On a document whose service_dims value is the number 7, the Go type
assertion `v.(string)` panics instead: the parse produces no metric stream
at all, rather than metrics carrying a `region=7` dimension. -/
theorem c7_counterexample_nonstring_dim_panics :
    parseUWSGIMetrics11 c7raw false = GoResult.panicked := by
  decide

/-- C8: flattening the document with the nested node `a.b` holding
`count: 5` and `type: "counter"` yields exactly one metric, named `a.b`, of
type Counter, with value 5 (and the default-mode `rollup=count` dimension). -/
theorem c8_flattener_counter_node :
    parseDropwizardMetrics c8raw =
      GoResult.ok [⟨"a.b", Metric.Counter, 5, [("rollup", "count")]⟩] := by
  decide

/-- C9 counterexample: the claim predicts that a node with the unrecognized
type string `weird` undergoes rule-3 leaf-gauge extraction — which on this
node would emit the single leaf gauge `a.count` of type GAUGE with dimension
`rollup=value` — and not rate-style extraction. The code instead falls
through to collectRate: because the node carries `unit: "seconds"`, it emits
the rate-style metric named `a` of type COUNTER with dimension
`rollup=count`. -/
theorem c9_counterexample_rate_extraction :
    parseDropwizardMetrics c9raw =
      GoResult.ok [⟨"a", MetricTypeCounter, 5, [("rollup", "count")]⟩] ∧
    parseDropwizardMetrics c9raw ≠
      GoResult.ok [⟨"a.count", MetricTypeGauge, 5, [("rollup", "value")]⟩] := by
  constructor
  · decide
  · decide

/-- C2: in cumulative-counter mode, a fixed-schema category entry expands
exactly as the claim states — every rollup key matching `m<digits>_rate`
(in the unanchored `regexp.MatchString` sense, cf. C10) is dropped and
emits no metric; every other numeric rollup except the literal key `value`
yields a metric named `<entry-key>.<rollup>` (`value` keeps the bare entry
key); the type is forced to CumulativeCounter exactly for the rollup
`count`; and no metric carries a `rollup` or `type` dimension (the third
conjunct shows the category-level `type` stamping is skipped in this mode;
non-numeric rollups are filtered as in §4.3). Shown for both the
uwsgi-format entry expansion (metricFromMap) and the java-format inner loop
on a dimensionless entry key. -/
theorem c2_cumulative_mode_expansion (entry : List (String × Jv)) (entryKey metricType : String)
    (batch : List Metric) (typeDimVal : String) :
    metricFromMap entry entryKey metricType true = cumulativeModeSpec entry entryKey metricType ∧
    javaInner [entryKey] metricType true entry =
      some (cumulativeModeSpec entry entryKey metricType) ∧
    appendTyped true batch typeDimVal = batch := by
  have main : metricFromMap entry entryKey metricType true =
      cumulativeModeSpec entry entryKey metricType ∧
      javaInner [entryKey] metricType true entry =
        some (cumulativeModeSpec entry entryKey metricType) := by
    induction entry with
    | nil => exact ⟨rfl, rfl⟩
    | cons kv rest ih =>
      obtain ⟨rollup, value⟩ := kv
      obtain ⟨ih1, ih2⟩ := ih
      by_cases hmat : containsRatePattern rollup
      · constructor
        · simp [metricFromMap, cumulativeModeSpec, List.filterMap_cons, hmat, ih1]
        · simp [javaInner, cumulativeModeSpec, List.filterMap_cons, hmat]
          rw [ih2]
          simp [cumulativeModeSpec]
      · constructor
        · cases value <;>
            simp [metricFromMap, cumulativeModeSpec, List.filterMap_cons, hmat,
              createMetricFromDatam, Metric.New, ih1] <;>
            by_cases hv : rollup = "value" <;>
              by_cases hc : rollup = "count" <;> simp_all [cumulativeModeSpec]
        · cases value <;>
            simp [javaInner, cumulativeModeSpec, List.filterMap_cons, hmat,
              createMetricFromDatam, Metric.New, addDimensionsFromName, addDimsGo, ih2] <;>
            by_cases hv : rollup = "value" <;>
              by_cases hc : rollup = "count" <;> simp_all [cumulativeModeSpec]
  exact ⟨main.1, main.2, rfl⟩

/-- C3: parsing a uwsgi.1.0 document in default mode emits exactly one
metric per numeric rollup across the five categories, named exactly by the
entry key, carrying `rollup=<key>` and `type=<category>` dimensions, typed
Counter for the counters category and Gauge otherwise; every rollup whose
JSON value is not a number emits nothing while its numeric siblings are
still emitted, and the parse returns ok (no error) regardless. -/
theorem c3_default_mode_uwsgi10 (v : Jv) (parsed : UwsgiJSONFormat1X)
    (hdec : decodeUwsgi v = Except.ok parsed) :
    parseUWSGIMetrics10 (some v) false =
      GoResult.ok
        (defaultModeSpec parsed.gauges "gauge" Metric.Gauge
          ++ defaultModeSpec parsed.counters "counter" Metric.Counter
          ++ defaultModeSpec parsed.histograms "histogram" Metric.Gauge
          ++ defaultModeSpec parsed.meters "meter" Metric.Gauge
          ++ defaultModeSpec parsed.timers "timer" Metric.Gauge) := by
  simp [parseUWSGIMetrics10, hdec, getParsedMetrics, appendTyped, addToAll_type_convert]

/-- C3 witness: the characterization evaluated on a concrete document whose
counters entry mixes the numeric rollup `count=2` with the non-numeric
rollup `status="n/a"`: only `count` (Counter, `type=counter`) and the gauge
`value=3/2` are emitted. -/
theorem c3_default_mode_uwsgi10_witness :
    parseUWSGIMetrics10 (some c3docJv) false =
      GoResult.ok
        (defaultModeSpec c3doc.gauges "gauge" Metric.Gauge
          ++ defaultModeSpec c3doc.counters "counter" Metric.Counter
          ++ defaultModeSpec c3doc.histograms "histogram" Metric.Gauge
          ++ defaultModeSpec c3doc.meters "meter" Metric.Gauge
          ++ defaultModeSpec c3doc.timers "timer" Metric.Gauge) :=
  c3_default_mode_uwsgi10 c3docJv c3doc rfl

/-- C4: the default/fallback parser first runs the uwsgi.1.0 parser on the
raw body; an error from it is propagated unchanged; a success with zero
metrics hands the same body to the Dropwizard flattener (which takes no
cumulative-counter flag at all — mirroring the source, whose fallback call
passes nothing through and whose flattener collectors hard-code default
mode); a success with at least one metric is returned unchanged. -/
theorem c4_default_parser_fallback (raw : Raw) (cumulCounterEnabled : Bool) :
    (∀ e, parseUWSGIMetrics10 raw cumulCounterEnabled = GoResult.error e →
       parseDefault raw cumulCounterEnabled = GoResult.error e) ∧
    (∀ ms, parseUWSGIMetrics10 raw cumulCounterEnabled = GoResult.ok ms →
       (ms = [] → parseDefault raw cumulCounterEnabled = parseDropwizardMetrics raw) ∧
       (ms ≠ [] → parseDefault raw cumulCounterEnabled = GoResult.ok ms)) := by
  constructor
  · intro e he
    simp [parseDefault, he]
  · intro ms hms
    constructor
    · intro h
      subst h
      simp [parseDefault, hms]
    · intro h
      simp [parseDefault, hms, List.length_eq_zero, h]

/-- C4 witness: the three branches at concrete bodies — an invalid-JSON body
propagates the unmarshal error; a `null` body parses to zero uwsgi.1.0
metrics and falls back to the flattener; a body with one gauge entry is
returned unchanged. -/
theorem c4_default_parser_fallback_witness :
    parseDefault none false = GoResult.error invalidJSONError ∧
    parseDefault (some Jv.null) false = parseDropwizardMetrics (some Jv.null) ∧
    parseDefault (some c4okJv) false =
      GoResult.ok [⟨"g", Metric.Gauge, 1, [("type", "gauge"), ("rollup", "value")]⟩] :=
  ⟨(c4_default_parser_fallback none false).1 invalidJSONError (by decide),
   ((c4_default_parser_fallback (some Jv.null) false).2 [] (by decide)).1 rfl,
   ((c4_default_parser_fallback (some c4okJv) false).2
       [⟨"g", Metric.Gauge, 1, [("type", "gauge"), ("rollup", "value")]⟩] (by decide)).2
     (by decide)⟩

/-- C7 amended: for every uwsgi.1.1 document whose service_dims values are
all JSON strings (their keys being distinct, as they are in any JSON-decoded
Go map), the parse succeeds and every service_dims pair is applied as a
dimension on every metric produced from the whole document. (As the
counterexample shows, a non-string value is not coerced: the Go type
assertion panics, so the claim's "whatever its JSON type" fails.) -/
theorem c7_amended_string_service_dims (v : Jv) (parsed : UwsgiJSONFormat1X)
    (cumulCounterEnabled : Bool)
    (hdec : decodeUwsgi v = Except.ok parsed)
    (hnodup : (parsed.serviceDims.map Prod.fst).Nodup)
    (hstr : ∀ kv ∈ parsed.serviceDims, ∃ s, kv.2 = Jv.str s) :
    ∃ ms, parseUWSGIMetrics11 (some v) cumulCounterEnabled = GoResult.ok ms ∧
      ∀ k s, (k, Jv.str s) ∈ parsed.serviceDims →
        ∀ m ∈ ms, getDim m.dimensions k = some s := by
  obtain ⟨ms2, happ, hprop⟩ :=
    applyServiceDims_spec parsed.serviceDims (getParsedMetrics parsed cumulCounterEnabled)
      hnodup hstr
  refine ⟨ms2, ?_, hprop⟩
  simp [parseUWSGIMetrics11, hdec, happ]

/-- C7 witness: the amended claim at a concrete document whose single
service_dims pair `habitat="uswest1"` is a string. -/
theorem c7_amended_string_service_dims_witness :
    ∃ ms, parseUWSGIMetrics11 (some c7okJv) false = GoResult.ok ms ∧
      ∀ k s, (k, Jv.str s) ∈ c7okDoc.serviceDims →
        ∀ m ∈ ms, getDim m.dimensions k = some s :=
  c7_amended_string_service_dims c7okJv c7okDoc false rfl (by decide)
    (by
      intro kv hkv
      rw [show c7okDoc.serviceDims = [("habitat", Jv.str "uswest1")] from rfl,
        List.mem_singleton] at hkv
      exact ⟨"uswest1", by rw [hkv]⟩)

/-- C9 amended: a flattener node whose `type` field is a string other than
gauge, histogram, counter, or meter does not fall straight to rule 3 — it
falls through to rate-style extraction (collectRate); only when rate-style
extraction yields no metrics does the traversal emit each non-map child key
as an independent leaf Gauge named `<joined-path>.<key>` (subject to the
numeric filter) and enqueue the map children. -/
theorem c9_amended_unrecognized_type (jm : List (String × Jv)) (path : List String) (t : String)
    (hty : lookupJv jm "type" = some (Jv.str t))
    (hg : t ≠ "gauge") (hh : t ≠ "histogram") (hc : t ≠ "counter") (hm : t ≠ "meter") :
    parseFlattenedMetricMap jm path = some (collectRate jm path) ∧
    (collectRate jm path = [] →
      visitEntries jm path jm = some (leafMetricsSpec jm path, childNodesSpec jm path)) := by
  have h1 : parseFlattenedMetricMap jm path = some (collectRate jm path) := by
    simp [parseFlattenedMetricMap, hty, hg, hh, hc, hm]
  exact ⟨h1, fun hempty => visitEntries_of_empty_extract jm path (by rw [h1, hempty]) jm⟩

/-- C9 amended witness: a concrete node with `type: "weird"` and no `unit`
field — rate extraction yields nothing, so its children become rule-3 leaf
gauges. -/
theorem c9_amended_unrecognized_type_witness :
    parseFlattenedMetricMap [("type", Jv.str "weird"), ("count", Jv.num 5)] ["a"] =
      some (collectRate [("type", Jv.str "weird"), ("count", Jv.num 5)] ["a"]) ∧
    (collectRate [("type", Jv.str "weird"), ("count", Jv.num 5)] ["a"] = [] →
      visitEntries [("type", Jv.str "weird"), ("count", Jv.num 5)] ["a"]
          [("type", Jv.str "weird"), ("count", Jv.num 5)] =
        some (leafMetricsSpec [("type", Jv.str "weird"), ("count", Jv.num 5)] ["a"],
          childNodesSpec [("type", Jv.str "weird"), ("count", Jv.num 5)] ["a"])) :=
  c9_amended_unrecognized_type _ ["a"] "weird" rfl (by decide) (by decide) (by decide) (by decide)

/-- C10: the cumulative-mode rate-drop rule is an unanchored substring
match — any rollup key containing a substring of the form `m<digits>_rate`
anywhere (not only keys exactly of that form, e.g. `team1_rated` or
`m15_rate_avg`, as the witness instantiates) contributes nothing to the
output, in both the uwsgi-format and the java-format entry expansion. -/
theorem c10_unanchored_rate_drop (k : String) (v : Jv) (rest restJ : List (String × Jv))
    (ename mtype : String) (values : List String) (h : HasRateSubstring k) :
    metricFromMap ((k, v) :: rest) ename mtype true = metricFromMap rest ename mtype true ∧
    javaInner values mtype true ((k, v) :: restJ) = javaInner values mtype true restJ := by
  have hm := containsRatePattern_of_hasRate k h
  constructor
  · simp [metricFromMap, hm]
  · simp [javaInner, hm]

/-- C10 witness: the key `team1_rated` — which merely contains `m1_rate` and
is not itself of the form `m<digits>_rate` — is dropped by both loops. -/
theorem c10_unanchored_rate_drop_witness :
    metricFromMap [("team1_rated", Jv.num 1)] "n" "gauge" true =
      metricFromMap [] "n" "gauge" true ∧
    javaInner ["n"] "gauge" true [("team1_rated", Jv.num 1)] =
      javaInner ["n"] "gauge" true [] :=
  c10_unanchored_rate_drop "team1_rated" (Jv.num 1) [] [] "n" "gauge" ["n"]
    ⟨['t', 'e', 'a'], ['1'], ['d'], by decide, by decide, by decide⟩

end Fullerite
